import Mathlib

/-!
Verification of the PropsParlor player-evaluation scripts.

The authoritative code is the pair of dashboard scripts in
`src/unnamed/part_001` (two script variants, called A and B below) and
`src/unnamed/part_002` (variant C).  Numbers are modelled as exact
rationals (`ℚ`); optional JS fields are `Option` values, with explicit
helpers reproducing JS truthiness and the `undefined`-comparison
semantics (`undefined > 22` is `false`, etc.).
-/

/-- A raw per-player stats blob, as stored in `player_stats.json` and read by
`scorePlayer` / `renderProps`.  Every field is optional in the JS objects. -/
structure Stats where
  pts : Option ℚ := none
  reb : Option ℚ := none
  ast : Option ℚ := none
  usage : Option ℚ := none
  min : Option ℚ := none
  games : Option ℚ := none
  def_rank : Option ℚ := none
  pace : Option ℚ := none
  l5_pts : Option ℚ := none
  l5_reb : Option ℚ := none
  l5_ast : Option ℚ := none
  trend_pts : Option String := none
  trend_reb : Option String := none
  trend_ast : Option String := none
  cons_pts : Option ℚ := none
  cons_reb : Option ℚ := none
  cons_ast : Option ℚ := none
  confidence : Option ℚ := none
  team : Option String := none
  opponent : Option String := none
  team_record : Option String := none
  opp_record : Option String := none
  opp_streak : Option String := none
deriving DecidableEq

/-- JS truthiness of an optional numeric field: `undefined` and `0` are falsy. -/
def jsTruthy : Option ℚ → Bool
  | none => false
  | some v => decide (v ≠ 0)

/-- JS `x > c` where `x` may be `undefined` (comparison with `undefined` is false). -/
def jsGt (x : Option ℚ) (c : ℚ) : Bool :=
  match x with
  | none => false
  | some v => decide (c < v)

/-- JS `x <= c` where `x` may be `undefined` (comparison with `undefined` is false). -/
def jsLe (x : Option ℚ) (c : ℚ) : Bool :=
  match x with
  | none => false
  | some v => decide (v ≤ c)

/-- JS `x >= c` where `x` may be `undefined` (comparison with `undefined` is false). -/
def jsGe (x : Option ℚ) (c : ℚ) : Bool :=
  match x with
  | none => false
  | some v => decide (c ≤ v)

/-- JS `x === 0` where `x` may be `undefined` (strict equality with `0`). -/
def jsEqZero : Option ℚ → Bool
  | none => false
  | some v => decide (v = 0)

/-- The insufficient-data guard of `scorePlayer` in the second script of
part_001 (line 438): `!s.pts || s.games === 0`.  The `!s` disjunct of the
source cannot fire because every caller passes `playerStats[name] || {}`. -/
def shortB (s : Stats) : Bool :=
  !jsTruthy s.pts || jsEqZero s.games

/-- The insufficient-data guard of `scorePlayer` in part_002 (line 102):
`!s.pts` (no `games` check in this variant). -/
def shortC (s : Stats) : Bool :=
  !jsTruthy s.pts

/-- Tier score logic, second script of part_001 (lines 437-448). -/
def scorePlayer (s : Stats) : ℚ :=
  if shortB s then 0.45
  else
    let sc : ℚ := 0.5
    let sc := if jsGt s.usage 22 then sc + 0.1 else sc
    let sc := if jsGt s.min 28 then sc + 0.1 else sc
    let sc := if jsTruthy s.def_rank && jsLe s.def_rank 10 then sc + 0.1 else sc
    let sc := if jsTruthy s.def_rank && jsGe s.def_rank 20 then sc - 0.1 else sc
    max 0 (min 1 sc)

/-- Tier score logic, part_002 (lines 101-112).  The `def_rank` comparisons
have no truthiness guard in this variant. -/
def scorePlayer2 (s : Stats) : ℚ :=
  if shortC s then 0.45
  else
    let sc : ℚ := 0.5
    let sc := if jsGt s.usage 22 then sc + 0.1 else sc
    let sc := if jsGt s.min 28 then sc + 0.1 else sc
    let sc := if jsLe s.def_rank 10 then sc + 0.1 else sc
    let sc := if jsGe s.def_rank 20 then sc - 0.1 else sc
    max 0 (min 1 sc)

/-- The pre-clamp additive total `sc` of `scorePlayer`'s else branch (part_001
second script), before `Math.max(0, Math.min(1, sc))` is applied. -/
def rawScore (s : Stats) : ℚ :=
  0.5 + (if jsGt s.usage 22 then (0.1 : ℚ) else 0)
      + (if jsGt s.min 28 then (0.1 : ℚ) else 0)
      + (if jsTruthy s.def_rank && jsLe s.def_rank 10 then (0.1 : ℚ) else 0)
      - (if jsTruthy s.def_rank && jsGe s.def_rank 20 then (0.1 : ℚ) else 0)

inductive Tier where
  | GREEN
  | YELLOW
  | RED
deriving DecidableEq

/-- Tier from a 0-1 score, as inlined in `buildProp` of the second script of
part_001 (lines 427-429) and of part_002 (lines 94-96):
`if (score >= 0.75) GREEN else if (score >= 0.55) YELLOW else RED`. -/
def tierOf (score : ℚ) : Tier :=
  if (0.75 : ℚ) ≤ score then Tier.GREEN
  else if (0.55 : ℚ) ≤ score then Tier.YELLOW
  else Tier.RED

/-- Tier from the raw 0-100 `confidence` field, as inlined in `buildProp` of
the first script of part_001 (lines 97-99):
`if (confidence >= 80) GREEN else if (confidence >= 60) YELLOW else RED`. -/
def tierOfA (confidence : ℚ) : Tier :=
  if (80 : ℚ) ≤ confidence then Tier.GREEN
  else if (60 : ℚ) ≤ confidence then Tier.YELLOW
  else Tier.RED

/-- A prop entry `{ name, stats, tier, score }` built by `buildProp` in the
second script of part_001 and in part_002. -/
structure PropEntry where
  name : String
  stats : Stats
  tier : Tier
  score : ℚ
deriving DecidableEq

/-- `buildProp`, second script of part_001 (lines 423-432):
`const stats = playerStats[name] || {}`, score via `scorePlayer`, tier via
the 0.75/0.55 thresholds. -/
def buildProp (playerStats : String → Option Stats) (name : String) : PropEntry :=
  let stats := (playerStats name).getD {}
  let score := scorePlayer stats
  { name := name, stats := stats, tier := tierOf score, score := score }

/-- `buildProp`, part_002 (lines 90-99); identical shape but it calls the
part_002 `scorePlayer`. -/
def buildProp2 (playerStats : String → Option Stats) (name : String) : PropEntry :=
  let stats := (playerStats name).getD {}
  let score := scorePlayer2 stats
  { name := name, stats := stats, tier := tierOf score, score := score }

/-- A prop entry `{ name, stats, tier, confidence }` built by `buildProp` in
the first script of part_001 (lines 93-102). -/
structure PropEntryA where
  name : String
  stats : Stats
  tier : Tier
  confidence : ℚ
deriving DecidableEq

/-- `buildProp`, first script of part_001 (lines 93-102):
`const confidence = stats.confidence ?? 50`, tier via the 80/60 thresholds. -/
def buildPropA (playerStats : String → Option Stats) (name : String) : PropEntryA :=
  let stats := (playerStats name).getD {}
  let confidence := stats.confidence.getD 50
  { name := name, stats := stats, tier := tierOfA confidence, confidence := confidence }

/-- `max 0 (min 1 x)` is the identity on `[0, 1]`. -/
lemma clamp_eq_self (x : ℚ) (h0 : 0 ≤ x) (h1 : x ≤ 1) : max 0 (min 1 x) = x := by
  rw [min_eq_right h1, max_eq_right h0]

/-- `scorePlayer` written without the sequential mutation: short-circuit,
else the clamped additive total; and the clamp is the identity there. -/
lemma scorePlayer_eq (s : Stats) :
    scorePlayer s = if shortB s then 0.45 else rawScore s := by
  unfold scorePlayer rawScore
  split_ifs <;> norm_num [max_def, min_def]

/-- `scorePlayer2` written without the sequential mutation. -/
lemma scorePlayer2_eq (s : Stats) :
    scorePlayer2 s =
      if shortC s then 0.45
      else
        0.5 + (if jsGt s.usage 22 then (0.1 : ℚ) else 0)
            + (if jsGt s.min 28 then (0.1 : ℚ) else 0)
            + (if jsLe s.def_rank 10 then (0.1 : ℚ) else 0)
            - (if jsGe s.def_rank 20 then (0.1 : ℚ) else 0) := by
  unfold scorePlayer2
  split_ifs <;> norm_num [max_def, min_def]

inductive Arrow where
  | UP
  | DOWN
  | FLAT
deriving DecidableEq

/-- The output of one `fillTrend` call in the first script of part_001: a bar
width percentage and a direction arrow (`▲` = UP, `▼` = DOWN, `■` = FLAT). -/
structure TrendCell where
  pct : ℚ
  arrow : Arrow
deriving DecidableEq

/-- `fillTrend`, first script of part_001 (lines 266-282).  The percentage is
`Math.min(100, (last5Val / (maxCeiling || 1)) * 100)`; the arrow comes from
the externally supplied `trend` hint only (`seasonVal` is displayed as text
but never compared; `cons` is received and unused). -/
def fillTrend (seasonVal last5Val : ℚ) (trend : Option String) (cons : Option ℚ)
    (maxCeiling : ℚ) : TrendCell :=
  let pct := min 100 (last5Val / (if maxCeiling = 0 then 1 else maxCeiling) * 100)
  let arrow :=
    if trend = some "up" then Arrow.UP
    else if trend = some "down" then Arrow.DOWN
    else Arrow.FLAT
  { pct := pct, arrow := arrow }

/-- `const pts = s.pts ?? 0` in renderProps, first script of part_001 (line 175). -/
def seasonPts (s : Stats) : ℚ := s.pts.getD 0

/-- `const reb = s.reb ?? 0` (line 176). -/
def seasonReb (s : Stats) : ℚ := s.reb.getD 0

/-- `const ast = s.ast ?? 0` (line 177). -/
def seasonAst (s : Stats) : ℚ := s.ast.getD 0

/-- `const l5_pts = s.l5_pts ?? pts` (line 179): the last-5 points fall back
to the season points average when the rolling field is absent. -/
def recentPts (s : Stats) : ℚ := s.l5_pts.getD (seasonPts s)

/-- `const l5_reb = s.l5_reb ?? reb` (line 180). -/
def recentReb (s : Stats) : ℚ := s.l5_reb.getD (seasonReb s)

/-- `const l5_ast = s.l5_ast ?? ast` (line 181). -/
def recentAst (s : Stats) : ℚ := s.l5_ast.getD (seasonAst s)

/-- The points `fillTrend` call of renderProps, first script of part_001
(lines 192-200): ceiling 40. -/
def ptsCell (s : Stats) : TrendCell :=
  fillTrend (seasonPts s) (recentPts s) s.trend_pts s.cons_pts 40

/-- The rebounds `fillTrend` call (lines 201-209): ceiling 18. -/
def rebCell (s : Stats) : TrendCell :=
  fillTrend (seasonReb s) (recentReb s) s.trend_reb s.cons_reb 18

/-- The assists `fillTrend` call (lines 210-218): ceiling 12. -/
def astCell (s : Stats) : TrendCell :=
  fillTrend (seasonAst s) (recentAst s) s.trend_ast s.cons_ast 12

/-- `const ptsPct = Math.min(100, (s.pts / 40) * 100)` in the second script of
part_001 (line 513), as a function of the numeric season value. -/
def ptsPctB (pts : ℚ) : ℚ := min 100 (pts / 40 * 100)

/-- `const rebPct = Math.min(100, (s.reb / 15) * 100)` (line 514). -/
def rebPctB (reb : ℚ) : ℚ := min 100 (reb / 15 * 100)

/-- `const astPct = Math.min(100, (s.ast / 12) * 100)` (line 515). -/
def astPctB (ast : ℚ) : ℚ := min 100 (ast / 12 * 100)

/-- The tier strings compared against `currentFilter.toUpperCase()`. -/
def tierStr : Tier → String
  | Tier.GREEN => "GREEN"
  | Tier.YELLOW => "YELLOW"
  | Tier.RED => "RED"

/-- The filter predicate of renderProps (second script of part_001, lines
460-462, and part_002, lines 120-123):
`currentFilter === "all" ? true : p.tier === currentFilter.toUpperCase()`. -/
def passFilter (currentFilter : String) (p : PropEntry) : Bool :=
  currentFilter == "all" || tierStr p.tier == currentFilter.toUpper

/-- The ordering produced by the comparator `(a, b) => b.score - a.score`:
`a` may stay before `b` exactly when `a.score ≥ b.score`. -/
def scoreGe (a b : PropEntry) : Prop := b.score ≤ a.score

instance : DecidableRel scoreGe := fun a b =>
  inferInstanceAs (Decidable (b.score ≤ a.score))

instance : IsTotal PropEntry scoreGe :=
  ⟨fun a b => le_total b.score a.score⟩

instance : IsTrans PropEntry scoreGe :=
  ⟨fun _ _ _ h1 h2 => le_trans h2 h1⟩

/-- The visible list computed by renderProps (second script of part_001,
lines 460-464): filter by tier, then `filtered.sort((a, b) => b.score -
a.score)`.  ES2019 `Array.prototype.sort` is a stable sort, and every stable
sort with this comparator returns the same list, so the call is modelled by
insertion sort with the `scoreGe` relation. -/
def renderList (currentFilter : String) (props : List PropEntry) : List PropEntry :=
  (props.filter (passFilter currentFilter)).insertionSort scoreGe

/-- Case analysis: `scorePlayer` only ever returns one of six values. -/
lemma scorePlayer_mem (s : Stats) :
    scorePlayer s = 0.45 ∨ scorePlayer s = 0.4 ∨ scorePlayer s = 0.5 ∨
      scorePlayer s = 0.6 ∨ scorePlayer s = 0.7 ∨ scorePlayer s = 0.8 := by
  rw [scorePlayer_eq]
  unfold rawScore
  split_ifs <;> norm_num

/-- Case analysis: `scorePlayer2` only ever returns one of six values. -/
lemma scorePlayer2_mem (s : Stats) :
    scorePlayer2 s = 0.45 ∨ scorePlayer2 s = 0.4 ∨ scorePlayer2 s = 0.5 ∨
      scorePlayer2 s = 0.6 ∨ scorePlayer2 s = 0.7 ∨ scorePlayer2 s = 0.8 := by
  rw [scorePlayer2_eq]
  split_ifs <;> norm_num

/-- The additive branch of `scorePlayer` never produces the 0.45 sentinel. -/
lemma rawScore_ne_sentinel (s : Stats) : rawScore s ≠ 0.45 := by
  unfold rawScore
  split_ifs <;> norm_num

/-- A rank cannot be both in the top 10 and at 20 or worse. -/
lemma jsLe_jsGe_exclusive (x : Option ℚ) : ¬(jsLe x 10 = true ∧ jsGe x 20 = true) := by
  rcases x with _ | d
  · simp [jsLe, jsGe]
  · simp only [jsLe, jsGe, decide_eq_true_eq]
    rintro ⟨h1, h2⟩
    linarith

lemma tierOf_eq_green (c : ℚ) : tierOf c = Tier.GREEN ↔ 0.75 ≤ c := by
  unfold tierOf
  split_ifs with h1 h2 <;> simp [h1]

lemma tierOf_eq_yellow (c : ℚ) : tierOf c = Tier.YELLOW ↔ 0.55 ≤ c ∧ c < 0.75 := by
  unfold tierOf
  split_ifs with h1 h2
  · simp
    intro _
    linarith
  · simp [h2]
    linarith [lt_of_not_le h1]
  · simp [h2]

lemma tierOf_eq_red (c : ℚ) : tierOf c = Tier.RED ↔ c < 0.55 := by
  unfold tierOf
  split_ifs with h1 h2
  · simp
    linarith
  · simp
    linarith
  · simp
    linarith [lt_of_not_le h2]

lemma tierOfA_eq_green (c : ℚ) : tierOfA c = Tier.GREEN ↔ 80 ≤ c := by
  unfold tierOfA
  split_ifs with h1 h2 <;> simp [h1]

lemma tierOfA_eq_yellow (c : ℚ) : tierOfA c = Tier.YELLOW ↔ 60 ≤ c ∧ c < 80 := by
  unfold tierOfA
  split_ifs with h1 h2
  · simp
    intro _
    linarith
  · simp [h2]
    linarith [lt_of_not_le h1]
  · simp [h2]

lemma tierOfA_eq_red (c : ℚ) : tierOfA c = Tier.RED ↔ c < 60 := by
  unfold tierOfA
  split_ifs with h1 h2
  · simp
    linarith
  · simp
    linarith
  · simp
    linarith [lt_of_not_le h2]

/-- Stability of `orderedInsert` under `scoreGe`: the sublist of entries whose
score is a given value `q` either gains the inserted entry at its front (when
the entry scores `q`) or is unchanged — entries skipped over all score
strictly more than the inserted one, hence never `q` in the first case. -/
lemma filter_orderedInsert (q : ℚ) (a : PropEntry) (l : List PropEntry) :
    (l.orderedInsert scoreGe a).filter (fun p => decide (p.score = q)) =
      if a.score = q then a :: l.filter (fun p => decide (p.score = q))
      else l.filter (fun p => decide (p.score = q)) := by
  induction l with
  | nil =>
    simp only [List.orderedInsert_nil, List.filter]
    split_ifs with h <;> simp [h]
  | cons b l ih =>
    rw [List.orderedInsert]
    by_cases hab : scoreGe a b
    · rw [if_pos hab]
      by_cases haq : a.score = q
      · simp [List.filter_cons, haq]
      · simp [List.filter_cons, haq]
    · rw [if_neg hab]
      have hlt : a.score < b.score := lt_of_not_le hab
      by_cases haq : a.score = q
      · have hbq : ¬(b.score = q) := by
          intro h
          rw [← haq] at h
          exact absurd h (ne_of_gt hlt)
        simp [List.filter_cons, hbq, ih, haq]
      · simp [List.filter_cons, ih, haq]

/-- Stability of the whole sort: sorting does not change the subsequence of
entries having any fixed score. -/
lemma filter_insertionSort (q : ℚ) (l : List PropEntry) :
    (l.insertionSort scoreGe).filter (fun p => decide (p.score = q)) =
      l.filter (fun p => decide (p.score = q)) := by
  induction l with
  | nil => rfl
  | cons a l ih =>
    rw [List.insertionSort, filter_orderedInsert]
    by_cases haq : a.score = q
    · simp [List.filter_cons, haq, ih]
    · simp [List.filter_cons, haq, ih]

/-- Dividing the `Math.min(100, v/c*100)` bar width by 100 gives the clamped
ratio `clamp(v/c, 0, 1)` whenever `v` is non-negative and `c` positive. -/
lemma pct_div_100 (v c : ℚ) (hc : 0 < c) (hv : 0 ≤ v) :
    min 100 (v / c * 100) / 100 = max 0 (min 1 (v / c)) := by
  have h0 : 0 ≤ v / c := div_nonneg hv hc.le
  by_cases h : v / c ≤ 1
  · rw [min_eq_right (by linarith : v / c * 100 ≤ 100), min_eq_right h,
      max_eq_right h0, mul_div_assoc]
    norm_num
  · push_neg at h
    rw [min_eq_left (by linarith : (100 : ℚ) ≤ v / c * 100), min_eq_left h.le,
      max_eq_right (by norm_num : (0 : ℚ) ≤ 1)]
    norm_num

/-- C1: for every canonical record that does not trigger the insufficient-data
short-circuit (points average present and non-zero, `games` not strictly 0,
`def_rank` positive when present), both scoring variants return
0.5 plus 0.10 for usage > 22, plus 0.10 for minutes > 28, plus 0.10 for a
present defensive rank ≤ 10, minus 0.10 for a present defensive rank ≥ 20 —
four independent additive adjustments; in particular
`{pts:25, usage:24, min:30, def_rank:8}` scores 0.8 and
`{pts:12, usage:18, min:22, def_rank:25}` scores 0.4. -/
theorem scorePlayer_additive_formula :
    (∀ (s : Stats) (p : ℚ), s.pts = some p → p ≠ 0 → s.games ≠ some 0 →
        (s.def_rank = none ∨ ∃ d, s.def_rank = some d ∧ 0 < d) →
        scorePlayer s =
          0.5 + (if jsGt s.usage 22 then (0.1 : ℚ) else 0)
              + (if jsGt s.min 28 then (0.1 : ℚ) else 0)
              + (if jsLe s.def_rank 10 then (0.1 : ℚ) else 0)
              - (if jsGe s.def_rank 20 then (0.1 : ℚ) else 0) ∧
        scorePlayer2 s =
          0.5 + (if jsGt s.usage 22 then (0.1 : ℚ) else 0)
              + (if jsGt s.min 28 then (0.1 : ℚ) else 0)
              + (if jsLe s.def_rank 10 then (0.1 : ℚ) else 0)
              - (if jsGe s.def_rank 20 then (0.1 : ℚ) else 0)) ∧
    scorePlayer { pts := some 25, usage := some 24, min := some 30, def_rank := some 8 } = 0.8 ∧
    scorePlayer2 { pts := some 25, usage := some 24, min := some 30, def_rank := some 8 } = 0.8 ∧
    scorePlayer { pts := some 12, usage := some 18, min := some 22, def_rank := some 25 } = 0.4 ∧
    scorePlayer2 { pts := some 12, usage := some 18, min := some 22, def_rank := some 25 } = 0.4 := by
  refine ⟨?main, ?e1, ?e2, ?e3, ?e4⟩
  case e1 =>
    rw [scorePlayer_eq]
    norm_num [shortB, jsTruthy, jsEqZero, rawScore, jsGt, jsLe, jsGe]
  case e2 =>
    rw [scorePlayer2_eq]
    norm_num [shortC, jsTruthy, jsGt, jsLe, jsGe]
  case e3 =>
    rw [scorePlayer_eq]
    norm_num [shortB, jsTruthy, jsEqZero, rawScore, jsGt, jsLe, jsGe]
  case e4 =>
    rw [scorePlayer2_eq]
    norm_num [shortC, jsTruthy, jsGt, jsLe, jsGe]
  case main =>
  intro s p hp hpz hg hdr
  have htr : jsTruthy s.pts = true := by
    rw [hp]
    simp [jsTruthy, hpz]
  have hez : jsEqZero s.games = false := by
    cases hgm : s.games with
    | none => simp [jsEqZero]
    | some v =>
      simp only [jsEqZero, decide_eq_false_iff_not]
      intro hv
      exact hg (by rw [hgm, hv])
  have hshB : shortB s = false := by simp [shortB, htr, hez]
  have hshC : shortC s = false := by simp [shortC, htr]
  have hdf10 : (jsTruthy s.def_rank && jsLe s.def_rank 10) = jsLe s.def_rank 10 := by
    rcases hdr with h | ⟨d, hd, hdpos⟩
    · simp [h, jsTruthy, jsLe]
    · simp [hd, jsTruthy, jsLe, ne_of_gt hdpos]
  have hdf20 : (jsTruthy s.def_rank && jsGe s.def_rank 20) = jsGe s.def_rank 20 := by
    rcases hdr with h | ⟨d, hd, hdpos⟩
    · simp [h, jsTruthy, jsGe]
    · simp [hd, jsTruthy, jsGe, ne_of_gt hdpos]
  constructor
  · rw [scorePlayer_eq, hshB]
    simp only [Bool.false_eq_true, if_false, rawScore, hdf10, hdf20]
  · rw [scorePlayer2_eq, hshC]
    simp only [Bool.false_eq_true, if_false]

/-- Witness for C1: the first example record satisfies all the hypotheses and
the additive formula evaluates to 0.8 there. -/
theorem scorePlayer_additive_formula_witness :
    scorePlayer { pts := some 25, usage := some 24, min := some 30, def_rank := some 8 } = 0.8 := by
  have h := (scorePlayer_additive_formula.1
      { pts := some 25, usage := some 24, min := some 30, def_rank := some 8 }
      25 rfl (by norm_num) (by decide) (Or.inr ⟨8, rfl, by norm_num⟩)).1
  norm_num [jsGt, jsLe, jsGe] at h
  rw [h]
  norm_num

/-- C2 counterexample: the claim's thresholds do not hold on every evaluation
path.  In the first script of part_001, a player whose stored `confidence` is
60 — far above 0.75 — is classified YELLOW, not GREEN, because that path
compares the raw 0-100 confidence against 80/60. -/
theorem tier_thresholds_counterexample :
    (buildPropA (fun _ => some { confidence := some 60 }) "X").tier = Tier.YELLOW ∧
    (0.75 : ℚ) ≤ (buildPropA (fun _ => some { confidence := some 60 }) "X").confidence ∧
    (buildPropA (fun _ => some { confidence := some 60 }) "X").tier ≠ Tier.GREEN := by
  refine ⟨?_, by norm_num [buildPropA], ?_⟩
  · norm_num [buildPropA, tierOfA]
  · norm_num [buildPropA, tierOfA]
    decide

/-- C2 amended: within each evaluation path the tier is a pure function of the
confidence value with inclusive lower bounds tested in descending order; the
`scorePlayer`-based paths (second script of part_001, and part_002) use
GREEN ⟺ score ≥ 0.75, YELLOW ⟺ 0.55 ≤ score < 0.75, RED otherwise, while the
first script of part_001 classifies its raw 0-100 `confidence` field with
GREEN ⟺ ≥ 80, YELLOW ⟺ 60 ≤ confidence < 80, RED otherwise. -/
theorem tier_thresholds_amended :
    (∀ c : ℚ,
      (tierOf c = Tier.GREEN ↔ 0.75 ≤ c) ∧
      (tierOf c = Tier.YELLOW ↔ 0.55 ≤ c ∧ c < 0.75) ∧
      (tierOf c = Tier.RED ↔ c < 0.55)) ∧
    (∀ c : ℚ,
      (tierOfA c = Tier.GREEN ↔ 80 ≤ c) ∧
      (tierOfA c = Tier.YELLOW ↔ 60 ≤ c ∧ c < 80) ∧
      (tierOfA c = Tier.RED ↔ c < 60)) ∧
    (∀ (stats : String → Option Stats) (pname : String),
      (buildProp stats pname).tier = tierOf (buildProp stats pname).score ∧
      (buildProp2 stats pname).tier = tierOf (buildProp2 stats pname).score ∧
      (buildPropA stats pname).tier = tierOfA (buildPropA stats pname).confidence) := by
  refine ⟨fun c => ⟨tierOf_eq_green c, tierOf_eq_yellow c, tierOf_eq_red c⟩,
    fun c => ⟨tierOfA_eq_green c, tierOfA_eq_yellow c, tierOfA_eq_red c⟩,
    fun stats pname => ⟨rfl, rfl, rfl⟩⟩

/-- C3 counterexample: the floor is not reserved for the claimed conjunction
`pts == 0 AND no games recorded`.  A record with `pts = 0` but 50 recorded
games still short-circuits to 0.45, where the claim's additive path would
give 0.5 + 0.1 (usage) + 0.1 (minutes) = 0.7. -/
theorem insufficient_data_floor_counterexample :
    scorePlayer { pts := some 0, usage := some 30, min := some 35, games := some 50 } = 0.45 ∧
    rawScore { pts := some 0, usage := some 30, min := some 35, games := some 50 } = 0.7 ∧
    (0.45 : ℚ) ≠ 0.7 := by
  refine ⟨?_, ?_, by norm_num⟩
  · rw [scorePlayer_eq]
    norm_num [shortB, jsTruthy, jsEqZero]
  · norm_num [rawScore, jsTruthy, jsGt, jsLe, jsGe]

/-- C3 amended: `scorePlayer` returns the 0.45 floor exactly when the season
points average is 0 or absent OR the record carries `games === 0` (the
part_002 variant drops the games check and floors exactly when points are 0
or absent); every other record takes the additive path, and a 0.45 score is
tiered RED. -/
theorem insufficient_data_floor_amended :
    ∀ s : Stats,
      (scorePlayer s = 0.45 ↔ shortB s = true) ∧
      (shortB s = true ↔ (jsTruthy s.pts = false ∨ jsEqZero s.games = true)) ∧
      (scorePlayer2 s = 0.45 ↔ shortC s = true) ∧
      (shortC s = true ↔ jsTruthy s.pts = false) ∧
      scorePlayer s = (if shortB s then 0.45 else rawScore s) ∧
      tierOf 0.45 = Tier.RED := by
  intro s
  refine ⟨?_, ?_, ?_, ?_, scorePlayer_eq s, by norm_num [tierOf]⟩
  · rw [scorePlayer_eq]
    by_cases h : shortB s = true
    · simp [h]
    · simp [h, rawScore_ne_sentinel s]
  · simp [shortB]
  · rw [scorePlayer2_eq]
    by_cases h : shortC s = true
    · simp [h]
    · have : ¬(0.5 + (if jsGt s.usage 22 then (0.1 : ℚ) else 0)
            + (if jsGt s.min 28 then (0.1 : ℚ) else 0)
            + (if jsLe s.def_rank 10 then (0.1 : ℚ) else 0)
            - (if jsGe s.def_rank 20 then (0.1 : ℚ) else 0) = 0.45) := by
        split_ifs <;> norm_num
      simp [h, this]
  · simp [shortC]

/-- C4: every score either variant ever produces lies in the closed interval
`[0, 1]`. -/
theorem confidence_clamp_invariant :
    ∀ s : Stats,
      (0 ≤ scorePlayer s ∧ scorePlayer s ≤ 1) ∧
      (0 ≤ scorePlayer2 s ∧ scorePlayer2 s ≤ 1) := by
  intro s
  rcases scorePlayer_mem s with h | h | h | h | h | h <;>
    rcases scorePlayer2_mem s with h2 | h2 | h2 | h2 | h2 | h2 <;>
      rw [h, h2] <;> norm_num

/-- C5: when a rolling last-5 field is absent, the recent value for that
component equals the corresponding season average (never 0); in particular a
record with only `pts = 20` shows recent points 20, a FLAT arrow, and a
points bar at 50% — the ratio 20/40 = 0.5. -/
theorem recent_fallback_season :
    (∀ s : Stats,
      recentPts { s with l5_pts := none } = seasonPts { s with l5_pts := none } ∧
      recentReb { s with l5_reb := none } = seasonReb { s with l5_reb := none } ∧
      recentAst { s with l5_ast := none } = seasonAst { s with l5_ast := none }) ∧
    recentPts { pts := some 20 } = 20 ∧
    (ptsCell { pts := some 20 }).arrow = Arrow.FLAT ∧
    (ptsCell { pts := some 20 }).pct = 50 ∧
    (ptsCell { pts := some 20 }).pct / 100 = 1 / 2 := by
  refine ⟨fun s => ⟨rfl, rfl, rfl⟩, rfl, rfl, ?_, ?_⟩ <;>
    norm_num [ptsCell, fillTrend, recentPts, seasonPts]

/-- C6 counterexample: the arrow is not derived from the numeric comparison.
With season points 20, identical recent points 20, and an externally supplied
hint `trend_pts = "up"`, the rendered arrow is UP although the recent value
does not exceed the season value. -/
theorem direction_symbol_counterexample :
    (ptsCell { pts := some 20, l5_pts := some 20, trend_pts := some "up" }).arrow = Arrow.UP ∧
    recentPts { pts := some 20, l5_pts := some 20, trend_pts := some "up" } ≤
      seasonPts { pts := some 20, l5_pts := some 20, trend_pts := some "up" } := by
  constructor
  · norm_num [ptsCell, fillTrend]
  · norm_num [recentPts, seasonPts]

/-- C6 amended: the arrow drawn by `fillTrend` is a function of the externally
supplied trend hint alone — UP exactly for hint "up", DOWN exactly for hint
"down", FLAT otherwise — and is independent of the numeric season/recent
values and the ceiling. -/
theorem direction_symbol_amended :
    ∀ (sv lv : ℚ) (t : Option String) (c : Option ℚ) (m : ℚ),
      ((fillTrend sv lv t c m).arrow = Arrow.UP ↔ t = some "up") ∧
      ((fillTrend sv lv t c m).arrow = Arrow.DOWN ↔ t = some "down") ∧
      ((fillTrend sv lv t c m).arrow = Arrow.FLAT ↔ (t ≠ some "up" ∧ t ≠ some "down")) ∧
      (∀ (sv2 lv2 : ℚ) (c2 : Option ℚ) (m2 : ℚ),
        (fillTrend sv lv t c m).arrow = (fillTrend sv2 lv2 t c2 m2).arrow) := by
  intro sv lv t c m
  refine ⟨?_, ?_, ?_, fun sv2 lv2 c2 m2 => ?_⟩ <;>
    unfold fillTrend <;> split_ifs <;> simp_all

/-- C7 counterexample: the rebound bar in the `fillTrend` rendering path is
normalized against a ceiling of 18, not the claimed uniform 15: a recent
rebound value of 9 fills the bar to 9/18 = 1/2, while the claimed formula
`clamp(9/15, 0, 1)` gives 3/5. -/
theorem fill_ratio_counterexample :
    (rebCell { l5_reb := some 9 }).pct / 100 = 1 / 2 ∧
    max 0 (min 1 ((9 : ℚ) / 15)) = 3 / 5 ∧
    ((1 : ℚ) / 2) ≠ 3 / 5 := by
  refine ⟨?_, ?_, by norm_num⟩
  · norm_num [rebCell, fillTrend, recentReb, seasonReb]
  · rw [min_eq_right (by norm_num), max_eq_right (by norm_num)]
    norm_num

/-- C7 amended: each bar is `min(recentValue/ceiling, 1)` of full width, and
equals `clamp(recentValue/ceiling, 0, 1)` for the non-negative values the data
takes; the `fillTrend` path of the first script uses ceilings
{pts 40, reb 18, ast 12}, while the second script's bars use
{pts 40, reb 15, ast 12} applied to the season averages. -/
theorem fill_ratio_amended :
    (∀ s : Stats,
      (ptsCell s).pct = min 100 (recentPts s / 40 * 100) ∧
      (rebCell s).pct = min 100 (recentReb s / 18 * 100) ∧
      (astCell s).pct = min 100 (recentAst s / 12 * 100)) ∧
    (∀ s : Stats, 0 ≤ recentPts s →
      (ptsCell s).pct / 100 = max 0 (min 1 (recentPts s / 40))) ∧
    (∀ s : Stats, 0 ≤ recentReb s →
      (rebCell s).pct / 100 = max 0 (min 1 (recentReb s / 18))) ∧
    (∀ s : Stats, 0 ≤ recentAst s →
      (astCell s).pct / 100 = max 0 (min 1 (recentAst s / 12))) ∧
    (∀ v : ℚ, 0 ≤ v →
      ptsPctB v / 100 = max 0 (min 1 (v / 40)) ∧
      rebPctB v / 100 = max 0 (min 1 (v / 15)) ∧
      astPctB v / 100 = max 0 (min 1 (v / 12))) := by
  refine ⟨?_, ?_, ?_, ?_, ?_⟩
  · intro s
    refine ⟨?_, ?_, ?_⟩ <;> norm_num [ptsCell, rebCell, astCell, fillTrend]
  · intro s hv
    have h := pct_div_100 (recentPts s) 40 (by norm_num) hv
    rw [show (ptsCell s).pct = min 100 (recentPts s / 40 * 100) by
      norm_num [ptsCell, fillTrend], h]
  · intro s hv
    have h := pct_div_100 (recentReb s) 18 (by norm_num) hv
    rw [show (rebCell s).pct = min 100 (recentReb s / 18 * 100) by
      norm_num [rebCell, fillTrend], h]
  · intro s hv
    have h := pct_div_100 (recentAst s) 12 (by norm_num) hv
    rw [show (astCell s).pct = min 100 (recentAst s / 12 * 100) by
      norm_num [astCell, fillTrend], h]
  · intro v hv
    exact ⟨pct_div_100 v 40 (by norm_num) hv, pct_div_100 v 15 (by norm_num) hv,
      pct_div_100 v 12 (by norm_num) hv⟩

/-- Witness for C7's amended statement: the non-negativity hypotheses hold at
a record with recent points 10, where the bar is at 25% = clamp(10/40). -/
theorem fill_ratio_amended_witness :
    (ptsCell { l5_pts := some 10 }).pct / 100 = max 0 (min 1 ((10 : ℚ) / 40)) := by
  have h := fill_ratio_amended.2.1 { l5_pts := some 10 } (by norm_num [recentPts, seasonPts])
  simpa [recentPts, seasonPts] using h

/-- C8: the displayed list is exactly the tier-filtered entries, sorted by
score in descending order (`scoreGe`), and the sort is stable: for every
score value, the subsequence of entries at that score is the same — in the
same order — as in the filtered input, which itself preserves input order. -/
theorem render_filter_sort_stable :
    ∀ (f : String) (props : List PropEntry),
      List.Sorted scoreGe (renderList f props) ∧
      List.Perm (renderList f props) (props.filter (passFilter f)) ∧
      (∀ p : PropEntry, p ∈ renderList f props ↔ p ∈ props ∧ passFilter f p = true) ∧
      (∀ q : ℚ,
        (renderList f props).filter (fun p => decide (p.score = q)) =
          (props.filter (passFilter f)).filter (fun p => decide (p.score = q))) := by
  intro f props
  refine ⟨List.sorted_insertionSort scoreGe _,
    List.perm_insertionSort scoreGe _, ?_, fun q => filter_insertionSort q _⟩
  intro p
  simp [renderList, List.mem_filter]

/-- C9: both scoring variants only ever return 0.45, 0.4, 0.5, 0.6, 0.7 or
0.8; the top-10 bonus and the ≥20 penalty are mutually exclusive; the final
clamp is the identity on the additive total; GREEN is reached exactly at
score 0.8; and 0.8 is reached exactly when the record escapes the
short-circuit and all three +0.10 adjustments fire. -/
theorem score_quantized_invariant :
    ∀ s : Stats,
      (scorePlayer s = 0.45 ∨ scorePlayer s = 0.4 ∨ scorePlayer s = 0.5 ∨
        scorePlayer s = 0.6 ∨ scorePlayer s = 0.7 ∨ scorePlayer s = 0.8) ∧
      (scorePlayer2 s = 0.45 ∨ scorePlayer2 s = 0.4 ∨ scorePlayer2 s = 0.5 ∨
        scorePlayer2 s = 0.6 ∨ scorePlayer2 s = 0.7 ∨ scorePlayer2 s = 0.8) ∧
      ((jsTruthy s.def_rank && jsLe s.def_rank 10) &&
        (jsTruthy s.def_rank && jsGe s.def_rank 20)) = false ∧
      (jsLe s.def_rank 10 && jsGe s.def_rank 20) = false ∧
      max 0 (min 1 (rawScore s)) = rawScore s ∧
      (tierOf (scorePlayer s) = Tier.GREEN ↔ scorePlayer s = 0.8) ∧
      (scorePlayer s = 0.8 ↔
        (!shortB s && (jsGt s.usage 22 && (jsGt s.min 28 &&
          (jsTruthy s.def_rank && jsLe s.def_rank 10)))) = true) := by
  intro s
  have hx := jsLe_jsGe_exclusive s.def_rank
  refine ⟨scorePlayer_mem s, scorePlayer2_mem s, ?_, ?_, ?_, ?_, ?_⟩
  · cases hle : jsLe s.def_rank 10 <;> cases hge : jsGe s.def_rank 20 <;> simp_all
  · cases hle : jsLe s.def_rank 10 <;> cases hge : jsGe s.def_rank 20 <;> simp_all
  · unfold rawScore
    split_ifs <;> norm_num [max_def, min_def]
  · rcases scorePlayer_mem s with h | h | h | h | h | h <;>
      rw [h, tierOf_eq_green] <;> norm_num
  · rw [scorePlayer_eq]
    by_cases hs : shortB s = true
    · simp only [hs, if_true, Bool.not_true, Bool.false_and, Bool.false_eq_true,
        iff_false]
      norm_num
    · rw [Bool.not_eq_true] at hs
      rw [hs]
      unfold rawScore
      simp only [Bool.false_eq_true, if_false, Bool.not_false, Bool.true_and]
      cases hu : jsGt s.usage 22 <;> cases hm : jsGt s.min 28 <;>
        cases hb : (jsTruthy s.def_rank && jsLe s.def_rank 10) <;>
          cases hp : (jsTruthy s.def_rank && jsGe s.def_rank 20) <;>
            first
              | (rw [Bool.and_eq_true] at hb hp
                 exact absurd ⟨hb.2, hp.2⟩ hx)
              | norm_num

/-- C10: building a prop entry is total for names absent from the player-stats
map: the missing entry defaults to the empty stats record, which scores the
0.45 insufficient-data floor and is tiered RED — in both `buildProp`
variants. -/
theorem buildProp_total_missing_player :
    ∀ (stats : String → Option Stats) (pname : String),
      stats pname = none →
      buildProp stats pname =
        { name := pname, stats := {}, tier := Tier.RED, score := 0.45 } ∧
      buildProp2 stats pname =
        { name := pname, stats := {}, tier := Tier.RED, score := 0.45 } := by
  intro m pname h
  have h45 : scorePlayer {} = 0.45 := by
    rw [scorePlayer_eq]
    simp [shortB, jsTruthy, jsEqZero]
  have h452 : scorePlayer2 {} = 0.45 := by
    rw [scorePlayer2_eq]
    simp [shortC, jsTruthy]
  have hred : tierOf (0.45 : ℚ) = Tier.RED := by norm_num [tierOf]
  constructor <;> simp [buildProp, buildProp2, h, h45, h452, hred]

/-- Witness for C10: a concrete empty map and name. -/
theorem buildProp_total_missing_player_witness :
    buildProp (fun _ => none) "Nobody" =
      { name := "Nobody", stats := {}, tier := Tier.RED, score := 0.45 } ∧
    buildProp2 (fun _ => none) "Nobody" =
      { name := "Nobody", stats := {}, tier := Tier.RED, score := 0.45 } :=
  buildProp_total_missing_player (fun _ => none) "Nobody" rfl
